import Mathlib

/-!
# Verification of `scripts/fetch_lol_series_v3.py`

Shallow embedding of the GRID LoL series fetcher (version-dependent GraphQL
query selection, the resumable fetch orchestrator with its progress store,
and the CSV export's per-player stat extraction), together with theorems
about the behaviours the specification describes.

Modelling conventions:
* Python dicts that are used as ordered string-keyed maps (`completed`,
  `failed`, `version_stats`) are association lists with Python 3.7 dict
  semantics: updating an existing key keeps its position, a new key is
  appended at the end.
* Network interaction is modelled by an oracle (`SeriesEnv`) describing, for
  each series id, the outcome of the version probe and of the data pull for
  whichever query variant is sent.
* Python `int(...)` applied to a version component is modelled as decimal
  digit parsing; a non-numeric component raises `ValueError`, modelled as
  `Except.error` carrying the offending component.
* Floats are modelled as rationals; `round(x, 2)` is round-half-to-even at
  two decimal places, as in Python.
-/

namespace FetchV3

/-- The six query variants held in the `QUERIES` dict of the script. -/
inductive QueryTier where
  | base
  | v3_10
  | v3_23
  | v3_30
  | v3_35
  | v3_43
deriving DecidableEq, Repr

/-- The set of fields requested by each query in `QUERIES`, as dotted paths
relative to the `seriesState` root.  Each list is transcribed from the
corresponding GraphQL query string in the source (the
`... on GamePlayerStateLol` inline fragment contributes the player stat
fields it selects). -/
def queryFields : QueryTier → List String
  | .base =>
    ["id", "version", "title.nameShortened", "format", "started", "finished",
     "startedAt", "teams.id", "teams.name", "teams.won", "teams.score",
     "games.id", "games.sequenceNumber", "games.started", "games.finished",
     "games.paused", "games.clock.currentSeconds", "games.clock.ticking",
     "games.map.name", "games.draftActions.id",
     "games.draftActions.sequenceNumber", "games.draftActions.type",
     "games.draftActions.drafter.id", "games.draftActions.drafter.type",
     "games.draftActions.draftable.id", "games.draftActions.draftable.type",
     "games.draftActions.draftable.name", "games.teams.id", "games.teams.name",
     "games.teams.side", "games.teams.won", "games.teams.score",
     "games.teams.kills", "games.teams.deaths",
     "games.teams.structuresDestroyed", "games.teams.objectives.id",
     "games.teams.objectives.type", "games.teams.players.id",
     "games.teams.players.name", "games.teams.players.participationStatus",
     "games.teams.players.character.id", "games.teams.players.character.name",
     "games.teams.players.kills", "games.teams.players.deaths",
     "games.teams.players.killAssistsGiven"]
  | .v3_10 =>
    ["id", "version", "title.nameShortened", "format", "started", "finished",
     "startedAt", "teams.id", "teams.name", "teams.won", "teams.score",
     "games.id", "games.sequenceNumber", "games.started", "games.finished",
     "games.paused", "games.clock.currentSeconds", "games.clock.ticking",
     "games.map.name", "games.draftActions.id",
     "games.draftActions.sequenceNumber", "games.draftActions.type",
     "games.draftActions.drafter.id", "games.draftActions.drafter.type",
     "games.draftActions.draftable.id", "games.draftActions.draftable.type",
     "games.draftActions.draftable.name", "games.teams.id", "games.teams.name",
     "games.teams.side", "games.teams.won", "games.teams.score",
     "games.teams.kills", "games.teams.deaths",
     "games.teams.structuresDestroyed", "games.teams.firstKill",
     "games.teams.objectives.id", "games.teams.objectives.type",
     "games.teams.players.id", "games.teams.players.name",
     "games.teams.players.participationStatus",
     "games.teams.players.character.id", "games.teams.players.character.name",
     "games.teams.players.kills", "games.teams.players.deaths",
     "games.teams.players.killAssistsGiven", "games.teams.players.firstKill"]
  | .v3_23 =>
    ["id", "version", "title.nameShortened", "format", "started", "finished",
     "startedAt", "teams.id", "teams.name", "teams.won", "teams.score",
     "games.id", "games.sequenceNumber", "games.started", "games.finished",
     "games.paused", "games.clock.currentSeconds", "games.clock.ticking",
     "games.titleVersion.name", "games.map.name", "games.draftActions.id",
     "games.draftActions.sequenceNumber", "games.draftActions.type",
     "games.draftActions.drafter.id", "games.draftActions.drafter.type",
     "games.draftActions.draftable.id", "games.draftActions.draftable.type",
     "games.draftActions.draftable.name", "games.teams.id", "games.teams.name",
     "games.teams.side", "games.teams.won", "games.teams.score",
     "games.teams.kills", "games.teams.deaths",
     "games.teams.structuresDestroyed", "games.teams.firstKill",
     "games.teams.objectives.id", "games.teams.objectives.type",
     "games.teams.players.id", "games.teams.players.name",
     "games.teams.players.participationStatus",
     "games.teams.players.character.id", "games.teams.players.character.name",
     "games.teams.players.kills", "games.teams.players.deaths",
     "games.teams.players.killAssistsGiven", "games.teams.players.firstKill",
     "games.teams.players.damageDealt", "games.teams.players.experiencePoints"]
  | .v3_30 =>
    ["id", "version", "title.nameShortened", "format", "started", "finished",
     "startedAt", "teams.id", "teams.name", "teams.won", "teams.score",
     "games.id", "games.sequenceNumber", "games.started", "games.finished",
     "games.paused", "games.clock.currentSeconds", "games.clock.ticking",
     "games.titleVersion.name", "games.map.name", "games.draftActions.id",
     "games.draftActions.sequenceNumber", "games.draftActions.type",
     "games.draftActions.drafter.id", "games.draftActions.drafter.type",
     "games.draftActions.draftable.id", "games.draftActions.draftable.type",
     "games.draftActions.draftable.name", "games.teams.id", "games.teams.name",
     "games.teams.side", "games.teams.won", "games.teams.score",
     "games.teams.kills", "games.teams.deaths",
     "games.teams.structuresDestroyed", "games.teams.firstKill",
     "games.teams.objectives.id", "games.teams.objectives.type",
     "games.teams.players.id", "games.teams.players.name",
     "games.teams.players.participationStatus",
     "games.teams.players.character.id", "games.teams.players.character.name",
     "games.teams.players.kills", "games.teams.players.deaths",
     "games.teams.players.killAssistsGiven", "games.teams.players.firstKill",
     "games.teams.players.damageDealt", "games.teams.players.experiencePoints",
     "games.teams.players.visionScore", "games.teams.players.kdaRatio"]
  | .v3_35 =>
    ["id", "version", "title.nameShortened", "format", "started", "finished",
     "startedAt", "teams.id", "teams.name", "teams.won", "teams.score",
     "games.id", "games.sequenceNumber", "games.started", "games.finished",
     "games.paused", "games.clock.currentSeconds", "games.clock.ticking",
     "games.titleVersion.name", "games.map.name", "games.draftActions.id",
     "games.draftActions.sequenceNumber", "games.draftActions.type",
     "games.draftActions.drafter.id", "games.draftActions.drafter.type",
     "games.draftActions.draftable.id", "games.draftActions.draftable.type",
     "games.draftActions.draftable.name", "games.teams.id", "games.teams.name",
     "games.teams.side", "games.teams.won", "games.teams.score",
     "games.teams.kills", "games.teams.deaths",
     "games.teams.structuresDestroyed", "games.teams.firstKill",
     "games.teams.objectives.id", "games.teams.objectives.type",
     "games.teams.players.id", "games.teams.players.name",
     "games.teams.players.participationStatus",
     "games.teams.players.character.id", "games.teams.players.character.name",
     "games.teams.players.kills", "games.teams.players.deaths",
     "games.teams.players.killAssistsGiven", "games.teams.players.firstKill",
     "games.teams.players.damageDealt", "games.teams.players.experiencePoints",
     "games.teams.players.visionScore", "games.teams.players.kdaRatio",
     "games.teams.players.killParticipation"]
  | .v3_43 =>
    ["id", "version", "title.nameShortened", "format", "started", "finished",
     "startedAt", "teams.id", "teams.name", "teams.won", "teams.score",
     "games.id", "games.sequenceNumber", "games.started", "games.finished",
     "games.paused", "games.clock.currentSeconds", "games.clock.ticking",
     "games.titleVersion.name", "games.map.name", "games.draftActions.id",
     "games.draftActions.sequenceNumber", "games.draftActions.type",
     "games.draftActions.drafter.id", "games.draftActions.drafter.type",
     "games.draftActions.draftable.id", "games.draftActions.draftable.type",
     "games.draftActions.draftable.name", "games.teams.id", "games.teams.name",
     "games.teams.side", "games.teams.won", "games.teams.score",
     "games.teams.kills", "games.teams.deaths",
     "games.teams.structuresDestroyed", "games.teams.firstKill",
     "games.teams.objectives.id", "games.teams.objectives.type",
     "games.teams.players.id", "games.teams.players.name",
     "games.teams.players.participationStatus",
     "games.teams.players.character.id", "games.teams.players.character.name",
     "games.teams.players.kills", "games.teams.players.deaths",
     "games.teams.players.killAssistsGiven", "games.teams.players.firstKill",
     "games.teams.players.damageDealt", "games.teams.players.experiencePoints",
     "games.teams.players.visionScore", "games.teams.players.kdaRatio",
     "games.teams.players.killParticipation"]

/-- Boolean membership in a field list. -/
def fset_mem (f : String) : List String → Bool
  | [] => false
  | g :: rest => if g = f then true else fset_mem f rest

/-- `fields_subset l1 l2`: every field of `l1` occurs in `l2`. -/
def fields_subset (l1 l2 : List String) : Bool :=
  l1.all (fun f => fset_mem f l2)

/-- Python tuple comparison `x >= y` on `(major, minor)` pairs:
lexicographic order. -/
def tupleGe (x y : ℕ × ℕ) : Bool :=
  decide (y.1 < x.1) || (decide (x.1 = y.1) && decide (y.2 ≤ x.2))

/-- Python `str.split('.')` on a character list. -/
def split_dot : List Char → List (List Char)
  | [] => [[]]
  | c :: rest =>
    let r := split_dot rest
    if c = '.' then [] :: r
    else
      match r with
      | [] => [[c]]
      | h :: t => (c :: h) :: t

/-- Decimal digit accumulation for `parse_nat?`. -/
def parse_nat_aux : List Char → ℕ → Option ℕ
  | [], acc => some acc
  | c :: rest, acc =>
    if c.isDigit then parse_nat_aux rest (acc * 10 + (c.toNat - 48)) else none

/-- Python `int(s)` for a decimal digit string: `none` when `s` is empty or
contains a non-digit character (where `int` raises `ValueError`). -/
def parse_nat? (cs : List Char) : Option ℕ :=
  match cs with
  | [] => none
  | _ => parse_nat_aux cs 0

/-- The version-string parsing prefix of `select_query_for_version`:
`parts = version_str.split('.')`, `major = int(parts[0])`,
`minor = int(parts[1]) if len(parts) > 1 else 0`.  An error carries the
component on which `int` raised `ValueError`. -/
def parse_version (version_str : String) : Except String (ℕ × ℕ) :=
  match split_dot version_str.data with
  | [] => .error version_str
  | p0 :: rest =>
    match parse_nat? p0 with
    | none => .error (String.mk p0)
    | some major =>
      match rest with
      | [] => .ok (major, 0)
      | p1 :: _ =>
        match parse_nat? p1 with
        | none => .error (String.mk p1)
        | some minor => .ok (major, minor)

/-- The threshold cascade of `select_query_for_version`, on the parsed
`(major, minor)` tuple. -/
def query_for_tuple (mm : ℕ × ℕ) : QueryTier :=
  if tupleGe mm (3, 43) then .v3_43
  else if tupleGe mm (3, 35) then .v3_35
  else if tupleGe mm (3, 30) then .v3_30
  else if tupleGe mm (3, 23) then .v3_23
  else if tupleGe mm (3, 10) then .v3_10
  else .base

/-- `select_query_for_version`: parse the version string, then pick the query
variant by the descending threshold cascade.  A `ValueError` from `int` is an
`Except.error`. -/
def select_query_for_version (version_str : String) : Except String QueryTier :=
  (parse_version version_str).map query_for_tuple

/-- The five explicit thresholds of the cascade, in the descending order the
source checks them, paired with the query each selects. -/
def THRESHOLDS : List ((ℕ × ℕ) × QueryTier) :=
  [((3, 43), .v3_43), ((3, 35), .v3_35), ((3, 30), .v3_30),
   ((3, 23), .v3_23), ((3, 10), .v3_10)]

lemma fset_mem_iff (f : String) (l : List String) : fset_mem f l = true ↔ f ∈ l := by
  induction l with
  | nil => simp [fset_mem]
  | cons g rest ih =>
    by_cases h : g = f
    · subst h; simp [fset_mem]
    · simp [fset_mem, h, ih, List.mem_cons]
      intro hf
      exact absurd hf.symm h

lemma fields_subset_iff (l1 l2 : List String) :
    fields_subset l1 l2 = true ↔ ∀ f ∈ l1, f ∈ l2 := by
  simp [fields_subset, List.all_eq_true, fset_mem_iff]

lemma fields_subset_refl (l : List String) : fields_subset l l = true := by
  rw [fields_subset_iff]; intro f hf; exact hf

lemma tupleGe_trans {a b c : ℕ × ℕ} (h1 : tupleGe a b = true)
    (h2 : tupleGe b c = true) : tupleGe a c = true := by
  simp only [tupleGe, Bool.or_eq_true, Bool.and_eq_true, decide_eq_true_eq] at h1 h2 ⊢
  omega

def tierRank : QueryTier → ℕ
  | .base => 0
  | .v3_10 => 1
  | .v3_23 => 2
  | .v3_30 => 3
  | .v3_35 => 4
  | .v3_43 => 5

lemma queryFields_mono_rank :
    ∀ {t t2 : QueryTier}, tierRank t ≤ tierRank t2 →
      fields_subset (queryFields t) (queryFields t2) = true := by
  intro t t2
  cases t <;> cases t2 <;> intro h <;> first
    | decide
    | (exfalso; simp [tierRank] at h)

lemma rank_cascade_ge_43 {mm : ℕ × ℕ} (h : tupleGe mm (3, 43) = true) :
    5 ≤ tierRank (query_for_tuple mm) := by
  simp [query_for_tuple, h, tierRank]

lemma rank_cascade_ge_35 {mm : ℕ × ℕ} (h : tupleGe mm (3, 35) = true) :
    4 ≤ tierRank (query_for_tuple mm) := by
  unfold query_for_tuple
  by_cases c43 : tupleGe mm (3, 43) = true
  · simp [c43, tierRank]
  · simp [c43, h, tierRank]

lemma rank_cascade_ge_30 {mm : ℕ × ℕ} (h : tupleGe mm (3, 30) = true) :
    3 ≤ tierRank (query_for_tuple mm) := by
  unfold query_for_tuple
  by_cases c43 : tupleGe mm (3, 43) = true
  · simp [c43, tierRank]
  · by_cases c35 : tupleGe mm (3, 35) = true
    · simp [c43, c35, tierRank]
    · simp [c43, c35, h, tierRank]

lemma rank_cascade_ge_23 {mm : ℕ × ℕ} (h : tupleGe mm (3, 23) = true) :
    2 ≤ tierRank (query_for_tuple mm) := by
  unfold query_for_tuple
  by_cases c43 : tupleGe mm (3, 43) = true
  · simp [c43, tierRank]
  · by_cases c35 : tupleGe mm (3, 35) = true
    · simp [c43, c35, tierRank]
    · by_cases c30 : tupleGe mm (3, 30) = true
      · simp [c43, c35, c30, tierRank]
      · simp [c43, c35, c30, h, tierRank]

lemma rank_cascade_ge_10 {mm : ℕ × ℕ} (h : tupleGe mm (3, 10) = true) :
    1 ≤ tierRank (query_for_tuple mm) := by
  unfold query_for_tuple
  by_cases c43 : tupleGe mm (3, 43) = true
  · simp [c43, tierRank]
  · by_cases c35 : tupleGe mm (3, 35) = true
    · simp [c43, c35, tierRank]
    · by_cases c30 : tupleGe mm (3, 30) = true
      · simp [c43, c35, c30, tierRank]
      · by_cases c23 : tupleGe mm (3, 23) = true
        · simp [c43, c35, c30, c23, tierRank]
        · simp [c43, c35, c30, c23, h, tierRank]

lemma query_for_tuple_rank_mono {mm1 mm2 : ℕ × ℕ} (h : tupleGe mm1 mm2 = true) :
    tierRank (query_for_tuple mm2) ≤ tierRank (query_for_tuple mm1) := by
  by_cases c43 : tupleGe mm2 (3, 43) = true
  · have h5 := rank_cascade_ge_43 (tupleGe_trans h c43)
    have e : query_for_tuple mm2 = .v3_43 := by simp [query_for_tuple, c43]
    rw [e]; exact h5
  · by_cases c35 : tupleGe mm2 (3, 35) = true
    · have h4 := rank_cascade_ge_35 (tupleGe_trans h c35)
      have e : query_for_tuple mm2 = .v3_35 := by simp [query_for_tuple, c43, c35]
      rw [e]; exact h4
    · by_cases c30 : tupleGe mm2 (3, 30) = true
      · have h3 := rank_cascade_ge_30 (tupleGe_trans h c30)
        have e : query_for_tuple mm2 = .v3_30 := by simp [query_for_tuple, c43, c35, c30]
        rw [e]; exact h3
      · by_cases c23 : tupleGe mm2 (3, 23) = true
        · have h2 := rank_cascade_ge_23 (tupleGe_trans h c23)
          have e : query_for_tuple mm2 = .v3_23 := by
            simp [query_for_tuple, c43, c35, c30, c23]
          rw [e]; exact h2
        · by_cases c10 : tupleGe mm2 (3, 10) = true
          · have h1 := rank_cascade_ge_10 (tupleGe_trans h c10)
            have e : query_for_tuple mm2 = .v3_10 := by
              simp [query_for_tuple, c43, c35, c30, c23, c10]
            rw [e]; exact h1
          · have e : query_for_tuple mm2 = .base := by
              simp [query_for_tuple, c43, c35, c30, c23, c10]
            rw [e]; exact Nat.zero_le _


def highest_threshold_choice (mm : ℕ × ℕ) (t : QueryTier) : Prop :=
  (∃ th, th ∈ THRESHOLDS ∧ th.2 = t ∧ tupleGe mm th.1 = true ∧
    ∀ th2 ∈ THRESHOLDS, tupleGe mm th2.1 = true → tupleGe th.1 th2.1 = true) ∨
  (t = .base ∧ ∀ th ∈ THRESHOLDS, tupleGe mm th.1 = false)

lemma query_for_tuple_highest (mm : ℕ × ℕ) :
    highest_threshold_choice mm (query_for_tuple mm) := by
  unfold highest_threshold_choice
  by_cases c43 : tupleGe mm (3, 43) = true
  · have e : query_for_tuple mm = .v3_43 := by simp [query_for_tuple, c43]
    rw [e]; left
    refine ⟨((3, 43), .v3_43), by simp [THRESHOLDS], rfl, c43, ?_⟩
    intro th2 h2 hmet
    simp [THRESHOLDS] at h2
    rcases h2 with rfl | rfl | rfl | rfl | rfl <;> decide
  · simp only [Bool.not_eq_true] at c43
    by_cases c35 : tupleGe mm (3, 35) = true
    · have e : query_for_tuple mm = .v3_35 := by simp [query_for_tuple, c43, c35]
      rw [e]; left
      refine ⟨((3, 35), .v3_35), by simp [THRESHOLDS], rfl, c35, ?_⟩
      intro th2 h2 hmet
      simp [THRESHOLDS] at h2
      rcases h2 with rfl | rfl | rfl | rfl | rfl
      · simp [c43] at hmet
      all_goals decide
    · simp only [Bool.not_eq_true] at c35
      by_cases c30 : tupleGe mm (3, 30) = true
      · have e : query_for_tuple mm = .v3_30 := by simp [query_for_tuple, c43, c35, c30]
        rw [e]; left
        refine ⟨((3, 30), .v3_30), by simp [THRESHOLDS], rfl, c30, ?_⟩
        intro th2 h2 hmet
        simp [THRESHOLDS] at h2
        rcases h2 with rfl | rfl | rfl | rfl | rfl
        · simp [c43] at hmet
        · simp [c35] at hmet
        all_goals decide
      · simp only [Bool.not_eq_true] at c30
        by_cases c23 : tupleGe mm (3, 23) = true
        · have e : query_for_tuple mm = .v3_23 := by
            simp [query_for_tuple, c43, c35, c30, c23]
          rw [e]; left
          refine ⟨((3, 23), .v3_23), by simp [THRESHOLDS], rfl, c23, ?_⟩
          intro th2 h2 hmet
          simp [THRESHOLDS] at h2
          rcases h2 with rfl | rfl | rfl | rfl | rfl
          · simp [c43] at hmet
          · simp [c35] at hmet
          · simp [c30] at hmet
          all_goals decide
        · simp only [Bool.not_eq_true] at c23
          by_cases c10 : tupleGe mm (3, 10) = true
          · have e : query_for_tuple mm = .v3_10 := by
              simp [query_for_tuple, c43, c35, c30, c23, c10]
            rw [e]; left
            refine ⟨((3, 10), .v3_10), by simp [THRESHOLDS], rfl, c10, ?_⟩
            intro th2 h2 hmet
            simp [THRESHOLDS] at h2
            rcases h2 with rfl | rfl | rfl | rfl | rfl
            · simp [c43] at hmet
            · simp [c35] at hmet
            · simp [c30] at hmet
            · simp [c23] at hmet
            · decide
          · simp only [Bool.not_eq_true] at c10
            have e : query_for_tuple mm = .base := by
              simp [query_for_tuple, c43, c35, c30, c23, c10]
            rw [e]; right
            refine ⟨rfl, ?_⟩
            intro th h
            simp [THRESHOLDS] at h
            rcases h with rfl | rfl | rfl | rfl | rfl
            · exact c43
            · exact c35
            · exact c30
            · exact c23
            · exact c10

lemma split_dot_no_dot (cs : List Char) (h : '.' ∉ cs) : split_dot cs = [cs] := by
  induction cs with
  | nil => rfl
  | cons c rest ih =>
    have hc : ¬ c = '.' := fun e => h (e ▸ List.mem_cons_self c rest)
    have hr : '.' ∉ rest := fun e => h (List.mem_cons_of_mem _ e)
    simp [split_dot, hc, ih hr]

/-- C1: for every version string that parses as `(major, minor)` (a missing
minor component defaults to 0), `select_query_for_version` returns the query
of the highest threshold the pair meets or exceeds, checked in descending
order 3.43, 3.35, 3.30, 3.23, 3.10, else the base query; in particular input
"3.31" selects the v3.30 query variant, which differs from v3.35. -/
theorem select_query_for_version_correct :
    (∀ (s : String) (mm : ℕ × ℕ), parse_version s = .ok mm →
        select_query_for_version s = .ok (query_for_tuple mm) ∧
        highest_threshold_choice mm (query_for_tuple mm)) ∧
    (∀ (cs : List Char) (n : ℕ), '.' ∉ cs → parse_nat? cs = some n →
        parse_version (String.mk cs) = .ok (n, 0)) ∧
    select_query_for_version "3.31" = .ok .v3_30 ∧
    QueryTier.v3_30 ≠ QueryTier.v3_35 := by
  refine ⟨?_, ?_, rfl, by decide⟩
  · intro s mm h
    refine ⟨?_, query_for_tuple_highest mm⟩
    simp [select_query_for_version, h, Except.map]
  · intro cs n hdot hn
    simp [parse_version, split_dot_no_dot cs hdot, hn]

/-- Witness for C1 at the concrete inputs "3.31" and "3". -/
theorem select_query_for_version_correct_witness :
    (select_query_for_version "3.31" = .ok (query_for_tuple (3, 31)) ∧
      highest_threshold_choice (3, 31) (query_for_tuple (3, 31))) ∧
    parse_version (String.mk ['3']) = .ok (3, 0) :=
  ⟨select_query_for_version_correct.1 "3.31" (3, 31) rfl,
   select_query_for_version_correct.2.1 ['3'] 3 (by decide) rfl⟩

def strict_field_superset (t t2 : QueryTier) : Prop :=
  fields_subset (queryFields t2) (queryFields t) = true ∧
  fields_subset (queryFields t) (queryFields t2) = false

instance (t t2 : QueryTier) : Decidable (strict_field_superset t t2) := by
  unfold strict_field_superset; infer_instance

/-- Counterexample to C2 as stated: the v3.43 query requests exactly the same
field set as the v3.35 query, so the last threshold step is not a strict
superset of the previous tier. -/
theorem query_v3_43_equals_v3_35 :
    queryFields .v3_43 = queryFields .v3_35 ∧
    ¬ strict_field_superset .v3_43 .v3_35 :=
  ⟨by decide, by decide⟩

/-- C2 (amended): query selection is monotone — for well-formed version
strings with `(major, minor)` pairs in lexicographic order, the field set of
the higher version's query contains the lower version's; each successive
threshold's query up through v3.35 requests a strictly larger field set than
the previous tier's, while the v3.43 query requests exactly the same field
set as v3.35. -/
theorem select_query_monotone_amended :
    (∀ (s1 s2 : String) (mm1 mm2 : ℕ × ℕ) (t1 t2 : QueryTier),
        parse_version s1 = .ok mm1 → parse_version s2 = .ok mm2 →
        tupleGe mm1 mm2 = true →
        select_query_for_version s1 = .ok t1 →
        select_query_for_version s2 = .ok t2 →
        fields_subset (queryFields t2) (queryFields t1) = true) ∧
    strict_field_superset .v3_10 .base ∧
    strict_field_superset .v3_23 .v3_10 ∧
    strict_field_superset .v3_30 .v3_23 ∧
    strict_field_superset .v3_35 .v3_30 ∧
    queryFields .v3_43 = queryFields .v3_35 := by
  refine ⟨?_, by decide, by decide, by decide, by decide, by decide⟩
  intro s1 s2 mm1 mm2 t1 t2 h1 h2 hge hs1 hs2
  simp [select_query_for_version, h1, Except.map] at hs1
  simp [select_query_for_version, h2, Except.map] at hs2
  subst hs1; subst hs2
  exact queryFields_mono_rank (query_for_tuple_rank_mono hge)

/-- Witness for the amended C2 at versions "3.35" and "3.10". -/
theorem select_query_monotone_amended_witness :
    fields_subset (queryFields .v3_10) (queryFields .v3_35) = true :=
  select_query_monotone_amended.1 "3.35" "3.10" (3, 35) (3, 10) .v3_35 .v3_10
    rfl rfl (by decide) rfl rfl

/-- Outcome of the version-probe request of `fetch_version`.  The first four
constructors are the failure modes the source maps to `None`: a transport
exception from `session.post`, a non-2xx status (`raise_for_status`), a
GraphQL `errors` array in the response, and a missing/empty `seriesState`
object.  `ok v` is a truthy `seriesState` whose optional `version` field is
`v`. -/
inductive VersionProbeResult where
  | transportError
  | httpError (status : ℕ)
  | graphqlErrors
  | noSeriesState
  | ok (version : Option String)
deriving DecidableEq, Repr

/-- Server-side outcome of the data-pull request, for whichever query variant
is sent. -/
inductive DataPullResult where
  | ok
  | timeout
  | netError (msg : String)
  | gqlError (msg : String)
deriving DecidableEq, Repr

/-- Environment oracle for one series id: the outcome of its version probe
and, per query variant sent, the outcome of its data pull. -/
structure SeriesEnv where
  probe : VersionProbeResult
  pull : QueryTier → DataPullResult

/-- `fetch_version`: returns the reported schema version, defaulting to
"3.0" when `seriesState` carries no version field, and `none` on every
failure mode (exception, non-2xx, GraphQL errors, missing series). -/
def fetch_version : VersionProbeResult → Option String
  | .transportError => none
  | .httpError _ => none
  | .graphqlErrors => none
  | .noSeriesState => none
  | .ok v => some (v.getD "3.0")

/-- `fetch_series_data`: select the query for the reported version and issue
the data pull.  Mirrors the source's `try` block: a `ValueError` raised by
`select_query_for_version` is caught by the generic handler and surfaces as
"Unexpected error: …" (the Python exception text is abstracted to the
offending version component); a GraphQL error surfaces its first message
verbatim; a timeout and other transport errors get their distinct reasons.
Success carries the query tier that was used for the request. -/
def fetch_series_data (version : String) (pull : QueryTier → DataPullResult) :
    Except String QueryTier :=
  match select_query_for_version version with
  | .error e => .error ("Unexpected error: " ++ e)
  | .ok tier =>
    match pull tier with
    | .ok => .ok tier
    | .timeout => .error "Request timeout"
    | .netError m => .error ("Network error: " ++ m)
    | .gqlError m => .error m

/-- Whether the second (data-pull) HTTP request is issued for a unit: only
when the version probe produced a version and `select_query_for_version` did
not raise before `session.post`. -/
def data_pull_issued (e : SeriesEnv) : Bool :=
  match fetch_version e.probe with
  | none => false
  | some v =>
    match parse_version v with
    | .error _ => false
    | .ok _ => true

/-- `version_stats` map: schema-version label → count. -/
abbrev VersionStats := List (String × ℕ)

/-- Python dict assignment `d[k] = v` on an association list: an existing key
is updated in place, a new key is appended at the end. -/
def dinsert {α : Type} (k : String) (v : α) : List (String × α) → List (String × α)
  | [] => [(k, v)]
  | (k2, v2) :: rest => if k2 = k then (k, v) :: rest else (k2, v2) :: dinsert k v rest

/-- Python `d.get(k)` on an association list. -/
def dlookup {α : Type} (k : String) : List (String × α) → Option α
  | [] => none
  | (k2, v2) :: rest => if k2 = k then some v2 else dlookup k rest

/-- `progress["version_stats"][key] = progress["version_stats"].get(key, 0) + 1`. -/
def bump (k : String) (stats : VersionStats) : VersionStats :=
  dinsert k ((dlookup k stats).getD 0 + 1) stats

/-- `process_series`: probe the version (fail with "Could not fetch version"
when unknown), record the version in `version_stats`, then pull the data with
the selected query.  Returns the `(success, message)` pair together with the
updated stats; on success the logged message carries the version (the team
names the source appends are display-only and elided). -/
def process_series (e : SeriesEnv) (stats : VersionStats) :
    (Bool × String) × VersionStats :=
  match fetch_version e.probe with
  | none => ((false, "Could not fetch version"), stats)
  | some v =>
    let stats2 := bump ("v" ++ v) stats
    match fetch_series_data v e.pull with
    | .error err => ((false, err), stats2)
    | .ok _ => ((true, "v" ++ v), stats2)

/-- The progress record of `load_progress`/`save_progress`: `completed` maps
series-id → raw-file path, `failed` maps series-id → error reason,
`version_stats` counts series per version label.  The `started_at` /
`last_updated` timestamps are wall-clock metadata and are modelled separately
for the save path. -/
structure Progress where
  completed : List (String × String)
  failed : List (String × String)
  version_stats : VersionStats
deriving DecidableEq, Repr

/-- The fresh zero-value record `load_progress` returns when no file exists. -/
def Progress.empty : Progress := ⟨[], [], []⟩

/-- The raw-payload file name `save_series_data` writes and `cmd_fetch`
records in `completed` (the run-scoped directory prefix, constant within a
run, is elided). -/
def series_file (sid : String) : String := "series_" ++ sid ++ ".json"

/-- One iteration of the `cmd_fetch` loop: process the series, then record it
in `completed` (on success) or `failed` (with the error reason). -/
def cmd_fetch_step (env : String → SeriesEnv) (p : Progress) (sid : String) : Progress :=
  match process_series (env sid) p.version_stats with
  | ((true, _), stats2) =>
    { completed := dinsert sid (series_file sid) p.completed
      failed := p.failed
      version_stats := stats2 }
  | ((false, msg), stats2) =>
    { completed := p.completed
      failed := dinsert sid msg p.failed
      version_stats := stats2 }

/-- A series id is done when it appears in `completed` or in `failed`. -/
def series_done (p : Progress) (sid : String) : Bool :=
  (dlookup sid p.completed).isSome || (dlookup sid p.failed).isSome

/-- `remaining_ids`: the worklist minus the ids already completed or failed,
computed once at the start of `cmd_fetch`. -/
def remaining_ids (p : Progress) (wl : List String) : List String :=
  wl.filter (fun sid => !(series_done p sid))

/-- The `cmd_fetch` processing loop over the remaining worklist (progress is
persisted after every unit, so an interruption between units leaves exactly a
fold over a prefix of the remaining list). -/
def cmd_fetch_run (env : String → SeriesEnv) (p : Progress) (wl : List String) :
    Progress :=
  (remaining_ids p wl).foldl (cmd_fetch_step env) p

/-- Whether processing a unit ends in `completed` (version probed and data
pull succeeded) rather than `failed`. -/
def unit_succeeds (e : SeriesEnv) : Bool :=
  match fetch_version e.probe with
  | none => false
  | some v =>
    match fetch_series_data v e.pull with
    | .ok _ => true
    | .error _ => false

/-- Progress-store states reachable by the orchestrator: the fresh store, and
the result of any (possibly interrupted) `cmd_fetch` run over any worklist
against any network environment — an interruption after `k` units leaves the
fold over the first `k` remaining ids, since progress is saved after every
unit. -/
inductive ReachableProgress : Progress → Prop where
  | init : ReachableProgress Progress.empty
  | run (p : Progress) (env : String → SeriesEnv) (wl : List String) (k : ℕ) :
      ReachableProgress p →
      ReachableProgress (((remaining_ids p wl).take k).foldl (cmd_fetch_step env) p)

lemma dlookup_dinsert {α : Type} (k k2 : String) (v : α) (m : List (String × α)) :
    dlookup k2 (dinsert k v m) = if k = k2 then some v else dlookup k2 m := by
  induction m with
  | nil => simp [dinsert, dlookup]
  | cons hd rest ih =>
    obtain ⟨k3, v3⟩ := hd
    by_cases e : k3 = k
    · subst e
      by_cases f : k3 = k2 <;> simp [dinsert, dlookup, f]
    · by_cases f : k3 = k2
      · subst f
        have e2 : ¬ k = k3 := fun h => e h.symm
        simp [dinsert, dlookup, e, e2]
      · simp [dinsert, dlookup, e, f, ih]

lemma process_series_succ (e : SeriesEnv) (stats : VersionStats) :
    (process_series e stats).1.1 = unit_succeeds e := by
  unfold process_series unit_succeeds
  cases h : fetch_version e.probe with
  | none => rfl
  | some v => cases h2 : fetch_series_data v e.pull <;> simp [h2]

lemma series_done_step (env : String → SeriesEnv) (p : Progress) (a s : String) :
    series_done (cmd_fetch_step env p a) s = (series_done p s || decide (a = s)) := by
  rcases h : process_series (env a) p.version_stats with ⟨⟨succ, msg⟩, stats2⟩
  cases succ <;>
    simp only [cmd_fetch_step, h, series_done] <;>
    by_cases e : a = s <;>
    simp [dlookup_dinsert, e, Bool.or_comm, Bool.or_assoc, Bool.or_left_comm]

lemma series_done_foldl (env : String → SeriesEnv) (l : List String) (p : Progress)
    (s : String) :
    series_done (l.foldl (cmd_fetch_step env) p) s = (series_done p s || decide (s ∈ l)) := by
  induction l generalizing p with
  | nil => simp
  | cons a rest ih =>
    simp only [List.foldl_cons, ih, series_done_step, List.mem_cons]
    by_cases e : s = a <;> by_cases e2 : s ∈ rest <;>
      simp [e, e2, eq_comm, Bool.or_assoc]

lemma dlookup_completed_step (env : String → SeriesEnv) (p : Progress) (a s : String) :
    (dlookup s (cmd_fetch_step env p a).completed).isSome =
      ((decide (a = s) && unit_succeeds (env a)) || (dlookup s p.completed).isSome) := by
  rcases h : process_series (env a) p.version_stats with ⟨⟨succ, msg⟩, stats2⟩
  have hs : succ = unit_succeeds (env a) := by
    rw [← process_series_succ (env a) p.version_stats, h]
  cases succ with
  | true =>
    simp only [cmd_fetch_step, h]
    by_cases e : a = s
    · subst e
      simp [dlookup_dinsert, ← hs]
    · simp [dlookup_dinsert, e, ← hs]
  | false =>
    simp only [cmd_fetch_step, h]
    simp [← hs]

lemma dlookup_failed_step (env : String → SeriesEnv) (p : Progress) (a s : String) :
    (dlookup s (cmd_fetch_step env p a).failed).isSome =
      ((decide (a = s) && !(unit_succeeds (env a))) || (dlookup s p.failed).isSome) := by
  rcases h : process_series (env a) p.version_stats with ⟨⟨succ, msg⟩, stats2⟩
  have hs : succ = unit_succeeds (env a) := by
    rw [← process_series_succ (env a) p.version_stats, h]
  cases succ with
  | true =>
    simp only [cmd_fetch_step, h]
    simp [← hs]
  | false =>
    simp only [cmd_fetch_step, h]
    by_cases e : a = s
    · subst e
      simp [dlookup_dinsert, ← hs]
    · simp [dlookup_dinsert, e, ← hs]

def maps_disjoint (p : Progress) : Prop :=
  ∀ s, ¬((dlookup s p.completed).isSome = true ∧ (dlookup s p.failed).isSome = true)

lemma maps_disjoint_foldl (env : String → SeriesEnv) :
    ∀ (l : List String) (p : Progress), maps_disjoint p →
      (∀ s ∈ l, (unit_succeeds (env s) = true → (dlookup s p.failed).isSome = false) ∧
                (unit_succeeds (env s) = false → (dlookup s p.completed).isSome = false)) →
      maps_disjoint (l.foldl (cmd_fetch_step env) p) := by
  intro l
  induction l with
  | nil => intro p hd _; exact hd
  | cons a rest ih =>
    intro p hd hcompat
    rw [List.foldl_cons]
    apply ih
    · intro s hboth
      obtain ⟨hc, hf⟩ := hboth
      rw [dlookup_completed_step] at hc
      rw [dlookup_failed_step] at hf
      simp only [Bool.or_eq_true, Bool.and_eq_true, decide_eq_true_eq] at hc hf
      rcases hc with ⟨heq, hsucc⟩ | hc
      · subst heq
        rcases hf with ⟨-, hnot⟩ | hf
        · rw [hsucc] at hnot; simp at hnot
        · have hcf := (hcompat a (List.mem_cons_self _ _)).1 hsucc
          simp [hcf] at hf
      · rcases hf with ⟨heq, hnot⟩ | hf
        · subst heq
          have hsf : unit_succeeds (env a) = false := by simpa using hnot
          have hcc := (hcompat a (List.mem_cons_self _ _)).2 hsf
          simp [hcc] at hc
        · exact hd s ⟨hc, hf⟩
    · intro s hs
      constructor
      · intro hsucc
        rw [dlookup_failed_step]
        by_cases e : a = s
        · subst e
          simp [hsucc, (hcompat a (List.mem_cons_self _ _)).1 hsucc]
        · simp [e, (hcompat s (List.mem_cons_of_mem _ hs)).1 hsucc]
      · intro hfail
        rw [dlookup_completed_step]
        by_cases e : a = s
        · subst e
          simp [hfail, (hcompat a (List.mem_cons_self _ _)).2 hfail]
        · simp [e, (hcompat s (List.mem_cons_of_mem _ hs)).2 hfail]

lemma filter_not_mem_append (l1 l2 : List String) (hdisj : List.Disjoint l1 l2) :
    (l1 ++ l2).filter (fun s => !(decide (s ∈ l1))) = l2 := by
  rw [List.filter_append]
  have ha : l1.filter (fun s => !(decide (s ∈ l1))) = [] := by
    rw [List.filter_eq_nil_iff]
    intro a h
    simp [h]
  have hb : l2.filter (fun s => !(decide (s ∈ l1))) = l2 := by
    rw [List.filter_eq_self]
    intro a h
    simp only [Bool.not_eq_true', decide_eq_false_iff_not]
    exact fun hmem => hdisj hmem h
  rw [ha, hb, List.nil_append]

lemma filter_not_mem_take (wl : List String) (hnd : wl.Nodup) (k : ℕ) :
    wl.filter (fun s => !(decide (s ∈ wl.take k))) = wl.drop k := by
  have hnd2 : (wl.take k ++ wl.drop k).Nodup := by
    rwa [List.take_append_drop]
  obtain ⟨-, -, hdisj⟩ := List.nodup_append.mp hnd2
  have h := filter_not_mem_append (wl.take k) (wl.drop k) hdisj
  rwa [List.take_append_drop] at h

lemma series_done_empty (s : String) : series_done Progress.empty s = false := by
  simp [series_done, Progress.empty, dlookup]

/-- C4: for every reachable Progress Store state, no series id is in both the
completed and the failed map; a done series id is excluded from the remaining
worklist of every run; and being done is preserved by every further
(possibly interrupted) run, so a done unit is never reprocessed until the
store is reset. -/
theorem progress_store_invariant :
    ∀ p, ReachableProgress p →
      (∀ s, ¬((dlookup s p.completed).isSome = true ∧ (dlookup s p.failed).isSome = true)) ∧
      (∀ s wl, series_done p s = true → s ∉ remaining_ids p wl) ∧
      (∀ env wl k s, series_done p s = true →
        series_done (((remaining_ids p wl).take k).foldl (cmd_fetch_step env) p) s = true) := by
  intro p hreach
  refine ⟨?_, ?_, ?_⟩
  · induction hreach with
    | init => intro s h; simp [Progress.empty, dlookup] at h
    | run p env wl k hp ih =>
      apply maps_disjoint_foldl env _ p ih
      intro s hs
      have hs2 : s ∈ remaining_ids p wl := List.take_subset k _ hs
      have hdone : series_done p s = false := by
        simpa using List.of_mem_filter hs2
      simp only [series_done, Bool.or_eq_false_iff] at hdone
      exact ⟨fun _ => hdone.2, fun _ => hdone.1⟩
  · intro s wl hdone hmem
    have h := List.of_mem_filter hmem
    simp [hdone] at h
  · intro env wl k s hdone
    rw [series_done_foldl]
    simp [hdone]

/-- Witness for C4 at the fresh store and the series id "S1". -/
theorem progress_store_invariant_witness :
    ¬((dlookup "S1" Progress.empty.completed).isSome = true ∧
      (dlookup "S1" Progress.empty.failed).isSome = true) :=
  (progress_store_invariant Progress.empty ReachableProgress.init).1 "S1"

/-- C3: starting from a fresh store, a run over a duplicate-free worklist
that is interrupted after `k` units leaves exactly the first `k` units
recorded; rerunning over the same worklist against the same network
environment processes exactly the remaining suffix, and the final store
(completed, failed, version_stats) equals the one an uninterrupted run
produces. -/
theorem cmd_fetch_resumable (env : String → SeriesEnv) (wl : List String)
    (hnd : wl.Nodup) (k : ℕ) :
    remaining_ids Progress.empty wl = wl ∧
    remaining_ids ((wl.take k).foldl (cmd_fetch_step env) Progress.empty) wl = wl.drop k ∧
    cmd_fetch_run env ((wl.take k).foldl (cmd_fetch_step env) Progress.empty) wl =
      cmd_fetch_run env Progress.empty wl := by
  have h1 : remaining_ids Progress.empty wl = wl := by
    unfold remaining_ids
    rw [List.filter_eq_self]
    intro a _
    simp [series_done_empty]
  have h2 : remaining_ids ((wl.take k).foldl (cmd_fetch_step env) Progress.empty) wl =
      wl.drop k := by
    unfold remaining_ids
    have hcongr : ∀ s ∈ wl,
        (!(series_done ((wl.take k).foldl (cmd_fetch_step env) Progress.empty) s)) =
          (!(decide (s ∈ wl.take k))) := by
      intro s _
      rw [series_done_foldl]
      simp [series_done_empty]
    rw [List.filter_congr hcongr]
    exact filter_not_mem_take wl hnd k
  refine ⟨h1, h2, ?_⟩
  unfold cmd_fetch_run
  rw [h1, h2]
  conv_rhs => rw [← List.take_append_drop k wl]
  rw [List.foldl_append]

/-- The spec scenario environment: S1's version probe hits a network error,
S2 reports version "3.31" and its data pull succeeds. -/
def scenario_env : String → SeriesEnv :=
  fun sid =>
    if sid = "S1" then { probe := .transportError, pull := fun _ => .ok }
    else { probe := .ok (some "3.31"), pull := fun _ => .ok }

/-- Witness for C3: interrupting after 1 of 2 units and rerunning matches the
uninterrupted run. -/
theorem cmd_fetch_resumable_witness :
    remaining_ids Progress.empty ["S1", "S2"] = ["S1", "S2"] ∧
    remaining_ids ((["S1", "S2"].take 1).foldl (cmd_fetch_step scenario_env)
      Progress.empty) ["S1", "S2"] = ["S1", "S2"].drop 1 ∧
    cmd_fetch_run scenario_env ((["S1", "S2"].take 1).foldl (cmd_fetch_step scenario_env)
      Progress.empty) ["S1", "S2"] =
      cmd_fetch_run scenario_env Progress.empty ["S1", "S2"] :=
  cmd_fetch_resumable scenario_env ["S1", "S2"] (by decide) 1

/-- C7: every version-probe failure mode (transport error, non-2xx status,
GraphQL errors array, missing seriesState) makes `fetch_version` return
`none`; the unit is then recorded in `failed` with reason "Could not fetch
version", `version_stats` is untouched, and the data-pull request is not
issued. -/
theorem version_probe_failure_no_data_pull :
    (fetch_version .transportError = none ∧ (∀ c, fetch_version (.httpError c) = none) ∧
     fetch_version .graphqlErrors = none ∧ fetch_version .noSeriesState = none) ∧
    (∀ (env : String → SeriesEnv) (p : Progress) (sid : String),
      fetch_version (env sid).probe = none →
      cmd_fetch_step env p sid =
        { completed := p.completed
          failed := dinsert sid "Could not fetch version" p.failed
          version_stats := p.version_stats } ∧
      data_pull_issued (env sid) = false) := by
  refine ⟨⟨rfl, fun c => rfl, rfl, rfl⟩, ?_⟩
  intro env p sid h
  constructor
  · simp [cmd_fetch_step, process_series, h]
  · simp [data_pull_issued, h]

/-- Witness for C7: S1 in the scenario environment fails its probe, is
recorded failed with "Could not fetch version", and no data pull is made. -/
theorem version_probe_failure_no_data_pull_witness :
    cmd_fetch_step scenario_env Progress.empty "S1" =
      { completed := [], failed := [("S1", "Could not fetch version")],
        version_stats := [] } ∧
    data_pull_issued (scenario_env "S1") = false := by
  have h := version_probe_failure_no_data_pull.2 scenario_env Progress.empty "S1" rfl
  simpa [Progress.empty, dinsert] using h

/-- A worklist environment whose first unit reports the malformed schema
version "abc" and whose other units report "3.30"; all data pulls succeed. -/
def malformed_env : String → SeriesEnv :=
  fun sid =>
    if sid = "S1" then { probe := .ok (some "abc"), pull := fun _ => .ok }
    else { probe := .ok (some "3.30"), pull := fun _ => .ok }

/-- Counterexample to C8 as stated: a malformed version string does not abort
the run before any work begins — the unit is recorded as a per-unit failure
("Unexpected error: …", the `ValueError` caught inside `fetch_series_data`)
and the run continues, completing the next unit of the worklist. -/
theorem malformed_version_does_not_abort :
    dlookup "S1" (cmd_fetch_run malformed_env Progress.empty ["S1", "S2"]).failed =
      some "Unexpected error: abc" ∧
    dlookup "S2" (cmd_fetch_run malformed_env Progress.empty ["S1", "S2"]).completed =
      some (series_file "S2") := by
  constructor <;> rfl

/-- C8 (amended): a version string with a non-numeric component makes
`select_query_for_version` raise; `fetch_series_data` catches the exception
and fails with an "Unexpected error: …" reason, so the orchestrator records
the unit in `failed` (after counting its version in `version_stats`) and
continues — there is no pre-run validation or abort. -/
theorem malformed_version_recorded_per_unit :
    ∀ (s e : String), parse_version s = .error e →
      (∀ pull : QueryTier → DataPullResult,
        fetch_series_data s pull = .error ("Unexpected error: " ++ e)) ∧
      (∀ (env : String → SeriesEnv) (p : Progress) (sid : String),
        (env sid).probe = .ok (some s) →
        cmd_fetch_step env p sid =
          { completed := p.completed
            failed := dinsert sid ("Unexpected error: " ++ e) p.failed
            version_stats := bump ("v" ++ s) p.version_stats }) := by
  intro s e h
  constructor
  · intro pull
    simp [fetch_series_data, select_query_for_version, h, Except.map]
  · intro env p sid hp
    simp [cmd_fetch_step, process_series, fetch_version, hp, fetch_series_data,
          select_query_for_version, h, Except.map]

/-- Witness for the amended C8 at version "abc". -/
theorem malformed_version_recorded_per_unit_witness :
    cmd_fetch_step malformed_env Progress.empty "S1" =
      { completed := []
        failed := [("S1", "Unexpected error: abc")]
        version_stats := [("vabc", 1)] } := by
  have h := (malformed_version_recorded_per_unit "abc" "abc" rfl).2
    malformed_env Progress.empty "S1" rfl
  simpa [Progress.empty, dinsert, bump, dlookup] using h

/-- An environment in which every probe finds a seriesState without a
version field. -/
def versionless_env : String → SeriesEnv :=
  fun _ => { probe := .ok none, pull := fun _ => .ok }

/-- C10: a successful probe whose seriesState carries no version field yields
the default version "3.0"; that version selects the base query, and the unit
is counted in `version_stats` under "v3.0" (whatever the data pull then
does). -/
theorem missing_version_defaults :
    fetch_version (.ok none) = some "3.0" ∧
    select_query_for_version "3.0" = .ok .base ∧
    (∀ (env : String → SeriesEnv) (p : Progress) (sid : String),
      (env sid).probe = .ok none →
      (cmd_fetch_step env p sid).version_stats = bump "v3.0" p.version_stats) := by
  refine ⟨rfl, rfl, ?_⟩
  intro env p sid h
  have hv : fetch_version (env sid).probe = some "3.0" := by rw [h]; rfl
  have happ : "v" ++ "3.0" = "v3.0" := rfl
  rcases h2 : fetch_series_data "3.0" ((env sid).pull) with e | t <;>
    simp [cmd_fetch_step, process_series, hv, h2, happ]

/-- Witness for C10: one unit processed against a versionless probe yields a
single "v3.0" entry in the version stats. -/
theorem missing_version_defaults_witness :
    (cmd_fetch_step versionless_env Progress.empty "S1").version_stats =
      [("v3.0", 1)] := by
  have h := missing_version_defaults.2.2 versionless_env Progress.empty "S1" rfl
  simpa [Progress.empty, bump, dinsert, dlookup] using h

/-- Round half to even at the integer, as Python's `round` does. -/
def roundHE (x : ℚ) : ℤ :=
  let n := ⌊x⌋
  let f := x - (n : ℚ)
  if f < 1 / 2 then n
  else if 1 / 2 < f then n + 1
  else if n % 2 = 0 then n else n + 1

/-- Python `round(x, 2)`: two-decimal rounding (floats idealized as
rationals). -/
def round2 (x : ℚ) : ℚ := ((roundHE (x * 100) : ℤ) : ℚ) / 100

/-- The per-player fields of one entry of `games[].teams[].players[]` in a
raw response that the export step reads (integer counters default to 0 via
`.get(..., 0)`; the remaining fields are absent on older schema versions). -/
structure RawPlayerGame where
  kills : Option ℤ
  deaths : Option ℤ
  killAssistsGiven : Option ℤ
  kdaRatio : Option ℚ
  killParticipation : Option ℚ
  visionScore : Option ℚ
  damageDealt : Option ℤ
  experiencePoints : Option ℤ
deriving DecidableEq, Repr

/-- The numeric/optional fields of one exported `player_game_stats` row. -/
structure PlayerStatRow where
  kills : ℤ
  deaths : ℤ
  assists : ℤ
  kda_ratio : Option ℚ
  kill_participation : Option ℚ
  vision_score : Option ℚ
  damage_dealt : Option ℤ
  experience_points : Option ℤ
deriving DecidableEq, Repr

/-- The per-player stat computation of `extract_and_export`:
`kda = player.get("kdaRatio") or ((kills + assists) / max(deaths, 1))`
(Python `or` falls through on a missing or zero upstream value);
`kp = player.get("killParticipation")`, computed as
`(kills + assists) / team_kills * 100` only when missing and
`team_kills > 0`; the exported `kda_ratio`, `kill_participation` and
`vision_score` are `round(v, 2) if v else None` — Python truthiness, so a
zero value is exported as null; `damage_dealt` / `experience_points` are
passed through unrounded. -/
def extract_player_stat (player : RawPlayerGame) (team_kills : ℤ) : PlayerStatRow :=
  let kills := player.kills.getD 0
  let deaths := player.deaths.getD 0
  let assists := player.killAssistsGiven.getD 0
  let kda : ℚ :=
    match player.kdaRatio with
    | some q =>
      if q = 0 then ((kills + assists : ℤ) : ℚ) / ((max deaths 1 : ℤ) : ℚ) else q
    | none => ((kills + assists : ℤ) : ℚ) / ((max deaths 1 : ℤ) : ℚ)
  let kp : Option ℚ :=
    match player.killParticipation with
    | some q => some q
    | none =>
      if 0 < team_kills then
        some ((((kills + assists : ℤ) : ℚ) / ((team_kills : ℤ) : ℚ)) * 100)
      else none
  { kills := kills
    deaths := deaths
    assists := assists
    kda_ratio := if kda = 0 then none else some (round2 kda)
    kill_participation :=
      match kp with
      | some q => if q = 0 then none else some (round2 q)
      | none => none
    vision_score :=
      match player.visionScore with
      | some q => if q = 0 then none else some (round2 q)
      | none => none
    damage_dealt := player.damageDealt
    experience_points := player.experiencePoints }

/-- A player whose upstream visionScore is present and equal to zero. -/
def zero_vision_player : RawPlayerGame :=
  { kills := some 1, deaths := some 1, killAssistsGiven := some 0,
    kdaRatio := none, killParticipation := none, visionScore := some 0,
    damageDealt := none, experiencePoints := none }

/-- C5 evaluation at the failing input: an upstream visionScore that is
present with value 0 is exported as null, not 0.0 — the `if value else None`
truthiness test cannot distinguish "absent" from "zero", contradicting the
claimed distinction. -/
theorem present_zero_vision_score_exported_null :
    zero_vision_player.visionScore = some 0 ∧
    (extract_player_stat zero_vision_player 10).vision_score = none := by
  refine ⟨rfl, by simp [extract_player_stat, zero_vision_player]⟩

/-- A player whose upstream kdaRatio is present with value 0 although
the computed formula gives 1. -/
def zero_kda_player : RawPlayerGame :=
  { kills := some 1, deaths := some 1, killAssistsGiven := some 0,
    kdaRatio := some 0, killParticipation := none, visionScore := none,
    damageDealt := none, experiencePoints := none }

/-- Counterexample to C6 as stated: for a player whose upstream kdaRatio is
present (value 0, kills 1, assists 0, deaths 1), the export does not use the
upstream value — Python `or` treats the zero as missing and the computed
fallback 1.0 is exported instead. -/
theorem upstream_zero_kda_not_used :
    zero_kda_player.kdaRatio = some 0 ∧
    (extract_player_stat zero_kda_player 10).kda_ratio = some 1 := by
  refine ⟨rfl, by norm_num [extract_player_stat, zero_kda_player, round2, roundHE]⟩

/-- C6 (amended): `kda_ratio` is taken from the upstream kdaRatio whenever
that field is present with a nonzero value (rounded to 2 decimals); when it
is absent or zero the export computes `(kills + assists) / max(deaths, 1)`
(rounded, and exported as null if the result is zero); in particular a
player with deaths 0, kills 2, assists 1 and no upstream kdaRatio yields
kda_ratio 3.0, the division guarded by flooring deaths at 1. -/
theorem kda_ratio_computation :
    (∀ (p : RawPlayerGame) (tk : ℤ) (q : ℚ), p.kdaRatio = some q → q ≠ 0 →
      (extract_player_stat p tk).kda_ratio = some (round2 q)) ∧
    (∀ (p : RawPlayerGame) (tk : ℤ), (p.kdaRatio = none ∨ p.kdaRatio = some 0) →
      (extract_player_stat p tk).kda_ratio =
        (if ((p.kills.getD 0 + p.killAssistsGiven.getD 0 : ℤ) : ℚ) /
            ((max (p.deaths.getD 0) 1 : ℤ) : ℚ) = 0 then none
         else some (round2 (((p.kills.getD 0 + p.killAssistsGiven.getD 0 : ℤ) : ℚ) /
            ((max (p.deaths.getD 0) 1 : ℤ) : ℚ))))) ∧
    (∀ (p : RawPlayerGame) (tk : ℤ), p.kdaRatio = none → p.deaths = some 0 →
      p.kills = some 2 → p.killAssistsGiven = some 1 →
      (extract_player_stat p tk).kda_ratio = some 3) := by
  refine ⟨?_, ?_, ?_⟩
  · intro p tk q h hq
    simp [extract_player_stat, h, hq]
  · intro p tk h
    rcases h with h | h <;> simp [extract_player_stat, h]
  · intro p tk h hd hk ha
    simp only [extract_player_stat, h, hd, hk, ha, Option.getD_some]
    norm_num [round2, roundHE]

/-- The edge-case player of the spec: deaths 0, kills 2, assists 1, no
upstream kdaRatio. -/
def edge_case_player : RawPlayerGame :=
  { kills := some 2, deaths := some 0, killAssistsGiven := some 1,
    kdaRatio := none, killParticipation := none, visionScore := none,
    damageDealt := none, experiencePoints := none }

/-- Witness for the amended C6 at the spec's edge-case player. -/
theorem kda_ratio_computation_witness :
    (extract_player_stat edge_case_player 10).kda_ratio = some 3 :=
  kda_ratio_computation.2.2 edge_case_player 10 rfl rfl rfl rfl

/-- The progress document as persisted: the three maps plus the wall-clock
metadata fields. -/
structure ProgressFile where
  progress : Progress
  started_at : Option String
  last_updated : Option String
deriving DecidableEq, Repr

/-- The record part of `save_progress`:
`progress["last_updated"] = datetime.now().isoformat()`. -/
def save_progress_record (doc : ProgressFile) (now : String) : ProgressFile :=
  { doc with last_updated := some now }

/-- The disk effect of `save_progress`: `open(PROGRESS_FILE, 'w')` truncates
the file in place and `json.dump` then writes the serialized record, so a
crash after `c` characters leaves a truncated document — the prior contents
are already gone. -/
def save_progress_disk (serialized old : String) (crash_at : Option ℕ) : String :=
  match crash_at with
  | none => serialized
  | some c => String.mk (serialized.data.take c)

/-- Modelled from the spec: the write-to-temp-then-rename save the spec
prescribes (absent from the source), under which a crash at any point leaves
the prior document intact. -/
def atomic_save_disk (serialized old : String) (crash_at : Option ℕ) : String :=
  match crash_at with
  | none => serialized
  | some _ => old

/-- Counterexample to C9 as stated: crashing at the start of a save leaves
the progress file truncated — neither the prior document nor the new one —
diverging from the atomic (temp-then-rename) behaviour the claim asserts. -/
theorem save_progress_crash_corrupts :
    save_progress_disk "NEWDOC" "OLDDOC" (some 0) ≠ "OLDDOC" ∧
    save_progress_disk "NEWDOC" "OLDDOC" (some 0) ≠ "NEWDOC" ∧
    save_progress_disk "NEWDOC" "OLDDOC" (some 0) ≠
      atomic_save_disk "NEWDOC" "OLDDOC" (some 0) := by
  refine ⟨by decide, by decide, by decide⟩

/-- C9 (amended): `save_progress` sets `last_updated` to the current time
and, absent a crash, the progress file holds the new document; but the write
is not atomic — it truncates the file in place, so there is a crash point at
which the disk holds neither the prior nor the new document. -/
theorem save_progress_amended :
    (∀ (doc : ProgressFile) (now : String),
      (save_progress_record doc now).last_updated = some now) ∧
    (∀ s old : String, save_progress_disk s old none = s) ∧
    (∃ (s old : String) (c : ℕ),
      save_progress_disk s old (some c) ≠ old ∧
      save_progress_disk s old (some c) ≠ s) := by
  refine ⟨fun doc now => rfl, fun s old => rfl,
    ⟨"NEWDOC", "OLDDOC", 0, by decide, by decide⟩⟩

end FetchV3
